import Mathlib

/-!
Shallow embedding of the live-share synchronization core:
`LiveEventScope` (role-filtered event channel) and the
`LiveObjectSynchronizer` / `ContainerSynchronizer` connect/update protocol,
together with the event freshness rule.

Conventions of the embedding:
* object state is a record of integer fields (`JSObj`); the layer under
  verification treats it as opaque, and integer fields are enough to express
  every concrete state the properties mention;
* a JavaScript value sitting in a wire payload entry is a `JVal`
  (undefined, null, or an object), so that the source's structural
  `typeof state == "object"` check can be translated exactly;
* a user callback that may throw is modelled with `Option`: `none` is a
  thrown exception, `some v` a normal return of `v`;
* signal submission is recorded as a list of emitted `Signal`s.
-/

namespace LiveShare

/-- A JSON-like record of integer fields: the opaque application state. -/
abbrev JSObj := List (String × Int)

/-- A JavaScript value as it appears as an entry of a coalesced wire
payload: `undefined`, `null`, or an object record. -/
inductive JVal where
  | undef : JVal
  | jnull : JVal
  | jobj : JSObj → JVal
deriving DecidableEq, Repr

/-- The JavaScript test `typeof v == "object"`: true for `null` and for
object records, false for `undefined`. -/
def JVal.typeofIsObject : JVal → Bool
  | JVal.undef => false
  | JVal.jnull => true
  | JVal.jobj _ => true

/-- The `GetAndUpdateStateHandlers` pair a live object registers.
`getState connecting` returns `none` when the callback throws, and
`some v` when it returns the value `v` (`JVal.undef` models a callback
returning `undefined`).  `updateState` returns `true` when it completes
and `false` when it throws; the synchronizer catches either way. -/
structure ObjHandlers where
  getState : Bool → Option JVal
  updateState : Bool → JVal → String → Bool

/-- One signal submitted to the container runtime: its type string and its
coalesced `id ↦ state` content. -/
structure Signal where
  type : String
  content : List (String × JVal)
deriving DecidableEq, Repr

/-- The signal type `"connect"`. -/
def CONNECT_EVENT : String := "connect"

/-- The signal type `"update"`. -/
def UPDATE_EVENT : String := "update"

/-- The mutable fields of a `ContainerSynchronizer`: the registered-object
map (association list in registration order), the two key lists, the
reference count (a JavaScript number, hence `Int`), and whether the
periodic interval timer is running. -/
structure SyncState where
  objects : List (String × ObjHandlers)
  unconnectedKeys : List String
  connectedKeys : List String
  refCount : Int
  timerRunning : Bool

/-- Lookup in the registered-object map (`Map.get`). -/
def lookupObj : List (String × ObjHandlers) → String → Option ObjHandlers
  | [], _ => none
  | p :: rest, i => if p.1 = i then some p.2 else lookupObj rest i

/-- `Map.has`: whether an id is currently registered. -/
def SyncState.hasObj (st : SyncState) (i : String) : Bool :=
  (lookupObj st.objects i).isSome

/-- The `this._refCount++ == 0` step of `registerObject`: increment the
reference count and start the interval timer on the first registration. -/
def bumpRef (st : SyncState) : SyncState :=
  if st.refCount = 0 then
    { st with refCount := st.refCount + 1, timerRunning := true }
  else
    { st with refCount := st.refCount + 1 }

/-- The failures `registerObject` can raise: the duplicate-registration
programmer error, or an exception propagating out of the snapshot
`handlers.getState(true)`. -/
inductive RegError where
  | duplicateRegistration : RegError
  | getStateThrew : RegError
deriving DecidableEq, Repr

/-- Result of a `registerObject` call: the synchronizer state after the
call (reflecting every mutation made before a raise), the signals
submitted, and the error raised if any. -/
structure RegOutcome where
  state : SyncState
  signals : List Signal
  error : Option RegError

/-- `ContainerSynchronizer.registerObject`.  Raises on a duplicate id
before any mutation; otherwise stores the handlers, then either submits a
single `connect` signal carrying the `getState(true)` snapshot and appends
the id to `connectedKeys` (runtime connected) or queues the id on
`unconnectedKeys` (disconnected), and finally bumps the reference count,
starting the timer on the first registration. -/
def registerObject (st : SyncState) (connected : Bool) (i : String)
    (h : ObjHandlers) : RegOutcome :=
  if st.hasObj i then
    ⟨st, [], some RegError.duplicateRegistration⟩
  else
    let st1 := { st with objects := st.objects ++ [(i, h)] }
    if connected then
      match h.getState true with
      | none => ⟨st1, [], some RegError.getStateThrew⟩
      | some v =>
          let st2 := { st1 with connectedKeys := st1.connectedKeys ++ [i] }
          ⟨bumpRef st2, [⟨CONNECT_EVENT, [(i, v)]⟩], none⟩
    else
      let st2 := { st1 with unconnectedKeys := st1.unconnectedKeys ++ [i] }
      ⟨bumpRef st2, [], none⟩

/-- Result of an `unregisterObject` call: the state after the call and the
returned boolean (true exactly when this was the last registered object). -/
structure UnregOutcome where
  state : SyncState
  lastObject : Bool

/-- `ContainerSynchronizer.unregisterObject`.  An unknown id returns false
and changes nothing.  A known id is deleted from the map and the count
decremented; when the count reaches zero the timer is cleared and the
method returns true early (without filtering the key lists), otherwise the
id is filtered out of both key lists and the method returns false. -/
def unregisterObject (st : SyncState) (i : String) : UnregOutcome :=
  if st.hasObj i then
    let st1 := { st with objects := st.objects.filter (fun p => p.1 ≠ i) }
    if st.refCount - 1 = 0 then
      ⟨{ st1 with refCount := st.refCount - 1, timerRunning := false }, true⟩
    else
      ⟨{ st1 with
          refCount := st.refCount - 1
          connectedKeys := st1.connectedKeys.filter (fun k => k ≠ i)
          unconnectedKeys := st1.unconnectedKeys.filter (fun k => k ≠ i) },
        false⟩
  else
    ⟨st, false⟩

/-- The update-composition loop of `ContainerSynchronizer.sendGroupEvent`:
for each key, look the object up (`?.` yields `undefined` for an unknown
id), call its `getState(false)` — a thrown exception is caught and the id
skipped — and keep the result iff `typeof state == "object"`. -/
def coalesce (st : SyncState) (keys : List String) : List (String × JVal) :=
  keys.filterMap fun i =>
    match lookupObj st.objects i with
    | none => none
    | some h =>
        match h.getState false with
        | none => none
        | some v => if v.typeofIsObject then some (i, v) else none

/-- `ContainerSynchronizer.sendGroupEvent`: compose the coalesced updates
for `keys` and submit one signal of type `evt` carrying them, or nothing
when the composed mapping is empty. -/
def sendGroupEvent (st : SyncState) (keys : List String) (evt : String) :
    List Signal :=
  let updates := coalesce st keys
  if updates.isEmpty then [] else [⟨evt, updates⟩]

/-- One firing of the periodic interval timer: `sendGroupEvent` over the
current `connectedKeys` with type `update` (the surrounding try/catch in
the source only guards signal submission, which the model treats as
non-throwing). -/
def tick (st : SyncState) : List Signal :=
  sendGroupEvent st st.connectedKeys UPDATE_EVENT

/-- The `runtime.on("connected")` handler: when unconnected keys are
queued, send one coalesced `connect` for all of them and move them to
`connectedKeys`. -/
def handleRuntimeConnected (st : SyncState) : SyncState × List Signal :=
  if st.unconnectedKeys.isEmpty then
    (st, [])
  else
    ({ st with
        connectedKeys := st.connectedKeys ++ st.unconnectedKeys
        unconnectedKeys := [] },
      sendGroupEvent st st.unconnectedKeys CONNECT_EVENT)

/-- One recorded invocation of a registered object's `updateState`
callback (the arguments `applyRemoteState` receives). -/
structure UpdateCall where
  id : String
  connecting : Bool
  state : JVal
  senderId : String
deriving DecidableEq, Repr

/-- Result of dispatching one inbound signal: the `updateState`
invocations made and the signals submitted in response. -/
structure DispatchOutcome where
  calls : List UpdateCall
  signals : List Signal

/-- `ContainerSynchronizer.dispatchUpdates`.  Iterates the payload
entries; every entry whose id is registered is pushed onto `keys`
(before the value is examined), and its `updateState` is invoked iff
`typeof state == "object"` — so `null` entries are dispatched —
with a thrown `updateState` caught per id.  A `connect` signal then
triggers the immediate pong: `sendGroupEvent keys "update"`. -/
def dispatchUpdates (st : SyncState) (senderId : String)
    (updates : List (String × JVal)) (connecting : Bool) : DispatchOutcome :=
  let keys := (updates.filter fun p => st.hasObj p.1).map Prod.fst
  let calls := updates.filterMap fun p =>
    match lookupObj st.objects p.1 with
    | none => none
    | some _ =>
        if p.2.typeofIsObject then
          some ⟨p.1, connecting, p.2, senderId⟩
        else
          none
  ⟨calls, if connecting then sendGroupEvent st keys UPDATE_EVENT else []⟩

/-- The `containerRuntime.on("signal")` handler: local signals and
non-object contents are ignored (`content = none` models a non-object
content); `connect` and `update` signals are dispatched, everything else
ignored. -/
def handleContainerSignal (st : SyncState) (isLocal : Bool) (msgType : String)
    (senderId : String) (content : Option (List (String × JVal))) :
    DispatchOutcome :=
  if isLocal then
    ⟨[], []⟩
  else
    match content with
    | none => ⟨[], []⟩
    | some updates =>
        if msgType = CONNECT_EVENT then
          dispatchUpdates st senderId updates true
        else if msgType = UPDATE_EVENT then
          dispatchUpdates st senderId updates false
        else
          ⟨[], []⟩

/-- The meeting roles (`UserMeetingRole`). -/
inductive UserMeetingRole where
  | organizer : UserMeetingRole
  | presenter : UserMeetingRole
  | attendee : UserMeetingRole
  | guest : UserMeetingRole
deriving DecidableEq, Repr

/-- An `ILiveEvent` record as carried in a signal content: name, the
(possibly absent or forged) client id, timestamp, and opaque extra payload
fields. -/
structure LiveEventRec where
  name : String
  clientId : Option String
  timestamp : Int
  payload : List (String × Int)
deriving DecidableEq, Repr

/-- An `IInboundSignalMessage` as the scope's signal handler sees it:
signal type, the carrier-supplied client id (null while the sender was
disconnected), and the event content. -/
structure InboundMessage where
  mtype : String
  clientId : Option String
  content : LiveEventRec
deriving DecidableEq, Repr

/-- Modelled from the spec: `LiveEvent.verifyRolesAllowed` (its source is
not among the repository files, only its caller in `LiveEventScope` is).
Per the spec it returns true if `allowed` is empty, otherwise whether the
intersection of the client's roles with `allowed` is non-empty; the role
lookup is fallible, and a lookup failure (`Except.error`) propagates. -/
def verifyRolesAllowed (clientRoles : Except Unit (List UserMeetingRole))
    (allowed : List UserMeetingRole) : Except Unit Bool :=
  if allowed.isEmpty then
    Except.ok true
  else
    match clientRoles with
    | Except.ok roles => Except.ok (roles.any fun r => allowed.contains r)
    | Except.error e => Except.error e

/-- The `runtime.on("signal")` handler installed by the `LiveEventScope`
constructor.  It first overwrites the content's `clientId` with the
carrier-supplied message `clientId`; then, only if the runtime is
connected and that id is non-null, it runs the role check and emits the
content to the listeners of the message type on success, dropping the
event (and logging) on a failed or erroring check.  The result is the
envelope delivered to listeners, or `none` when the event is dropped.
`lookup` is the role verifier for a client id (`Except.error` a failed
lookup). -/
def scopeHandleSignal (connected : Bool) (allowed : List UserMeetingRole)
    (lookup : String → Except Unit (List UserMeetingRole))
    (msg : InboundMessage) : Option LiveEventRec :=
  let content := { msg.content with clientId := msg.clientId }
  if connected then
    match msg.clientId with
    | none => none
    | some cid =>
        match verifyRolesAllowed (lookup cid) allowed with
        | Except.ok true => some content
        | Except.ok false => none
        | Except.error _ => none
  else
    none

/-- A wire envelope as compared by the freshness rule: its timestamp and
its sender's client id. -/
structure Envelope where
  timestamp : Int
  clientId : String
deriving DecidableEq, Repr

/-- Modelled from the spec: the event freshness rule (`LiveEvent.isNewer`
is not among the repository files).  `a` is newer than `b` iff
`a.timestamp > b.timestamp`, or the timestamps are equal and `a.clientId`
is lexicographically greater than `b.clientId`. -/
def newer (a b : Envelope) : Prop :=
  a.timestamp > b.timestamp ∨
    (a.timestamp = b.timestamp ∧ a.clientId > b.clientId)

instance (a b : Envelope) : Decidable (newer a b) := by
  unfold newer
  infer_instance

/-- Envelope equivalence for the freshness order: equal timestamp and
equal client id. -/
def equivEnv (a b : Envelope) : Prop :=
  a.timestamp = b.timestamp ∧ a.clientId = b.clientId

instance (a b : Envelope) : Decidable (equivEnv a b) := by
  unfold equivEnv
  infer_instance

/-! Concrete fixtures used by witnesses and counterexamples. -/

/-- Handlers whose `getState` always throws. -/
def throwingHandlers : ObjHandlers := ⟨fun _ => none, fun _ _ _ => true⟩

/-- Handlers whose `getState` returns the object with field v equal to 7. -/
def v7Handlers : ObjHandlers :=
  ⟨fun _ => some (JVal.jobj [("v", 7)]), fun _ _ _ => true⟩

/-- Handlers whose `getState` returns `undefined`. -/
def undefHandlers : ObjHandlers := ⟨fun _ => some JVal.undef, fun _ _ _ => true⟩

/-- A synchronizer with no registrations. -/
def emptySt : SyncState := ⟨[], [], [], 0, false⟩

/-- A synchronizer tracking o1 (whose getState throws) and o2 (whose
getState returns the record with v equal to 7), both connected. -/
def stC7 : SyncState :=
  ⟨[("o1", throwingHandlers), ("o2", v7Handlers)], [], ["o1", "o2"], 2, true⟩

/-- A synchronizer tracking o1 (getState returns undefined) and o2
(getState returns the record with v equal to 7), both connected. -/
def stC4 : SyncState :=
  ⟨[("o1", undefHandlers), ("o2", v7Handlers)], [], ["o1", "o2"], 2, true⟩

/-- A synchronizer tracking only o1 with ordinary handlers. -/
def stC9 : SyncState := ⟨[("o1", v7Handlers)], [], ["o1"], 1, true⟩

/-- An inbound scope message from carrier client A whose content claims to
be from a different client. -/
def msgC2 : InboundMessage :=
  ⟨"transport", some "A", ⟨"transport", some "spoof", 1, []⟩⟩

/-! Helper lemmas shared by several claims. -/

/-- What one `sendGroupEvent` call emits: at most one signal; an emitted
signal has the requested type and carries exactly the coalesced mapping;
an empty coalesced mapping emits nothing. -/
theorem sendGroupEvent_char (st : SyncState) (keys : List String)
    (evt : String) :
    (sendGroupEvent st keys evt).length ≤ 1 ∧
    (∀ sig ∈ sendGroupEvent st keys evt,
      sig.type = evt ∧ sig.content = coalesce st keys) ∧
    (coalesce st keys = [] → sendGroupEvent st keys evt = []) := by
  unfold sendGroupEvent
  by_cases hemp : (coalesce st keys).isEmpty
  · simp [hemp]
  · refine ⟨by simp [hemp], ?_, ?_⟩
    · intro sig hsig
      simp [hemp] at hsig
      simp [hsig]
    · intro hnil
      rw [hnil] at hemp
      simp at hemp

/-- Membership in a coalesced mapping forces the entry to come from the
keyed object: an entry keyed `i` exists only if `i` is a key whose
handlers are registered and whose `getState(false)` returned `v` with
`typeof v == "object"`. -/
theorem coalesce_mem_inv (st : SyncState) (keys : List String) (i : String)
    (v : JVal) (hmem : (i, v) ∈ coalesce st keys) :
    i ∈ keys ∧ ∃ h, lookupObj st.objects i = some h ∧
      h.getState false = some v ∧ v.typeofIsObject = true := by
  unfold coalesce at hmem
  rw [List.mem_filterMap] at hmem
  obtain ⟨a, ha, hfa⟩ := hmem
  rcases hl : lookupObj st.objects a with _ | h
  · simp [hl] at hfa
  · rcases hg : h.getState false with _ | w
    · simp [hl, hg] at hfa
    · by_cases hobj : w.typeofIsObject
      · simp [hl, hg, hobj] at hfa
        obtain ⟨hai, hwv⟩ := hfa
        subst hai
        subst hwv
        exact ⟨ha, h, hl, hg, hobj⟩
      · simp [hl, hg, hobj] at hfa

/-- The signals of a remote `connect` handled by the container signal
handler are exactly one `sendGroupEvent` pong over the registered ids of
the payload. -/
theorem handle_connect_signals (st : SyncState) (senderId : String)
    (updates : List (String × JVal)) :
    (handleContainerSignal st false CONNECT_EVENT senderId
        (some updates)).signals =
      sendGroupEvent st ((updates.filter fun p => st.hasObj p.1).map
        Prod.fst) UPDATE_EVENT := by
  unfold handleContainerSignal dispatchUpdates
  simp

/-- The lexicographic key the freshness rule compares. -/
def freshKey (a : Envelope) : Int ×ₗ String :=
  toLex (a.timestamp, a.clientId)

/-- The freshness relation is the strict lexicographic order on keys. -/
theorem newer_iff_key (a b : Envelope) :
    newer a b ↔ freshKey b < freshKey a := by
  unfold newer freshKey
  rw [Prod.Lex.lt_iff]
  constructor
  · rintro (h | ⟨he, hc⟩)
    · exact Or.inl h
    · exact Or.inr ⟨he.symm, hc⟩
  · rintro (h | ⟨he, hc⟩)
    · exact Or.inl h
    · exact Or.inr ⟨he.symm, hc⟩

/-- Envelope equivalence is equality of freshness keys. -/
theorem equivEnv_iff_key (a b : Envelope) :
    equivEnv a b ↔ freshKey a = freshKey b := by
  unfold equivEnv freshKey
  constructor
  · rintro ⟨h1, h2⟩
    rw [h1, h2]
  · intro h
    have h' : (a.timestamp, a.clientId) = (b.timestamp, b.clientId) :=
      toLex.injective h
    exact ⟨congrArg Prod.fst h', congrArg Prod.snd h'⟩

/-- Claim C8: the freshness relation — `newer a b` iff the timestamp of
`a` exceeds that of `b`, or the timestamps are equal and the client id of
`a` is lexicographically greater — is a strict total order on envelopes:
it is asymmetric (hence antisymmetric), transitive, and for every pair of
envelopes exactly one of `newer a b`, `newer b a`, `a ≡ b` holds; in
particular, of two envelopes with equal timestamp 1000 and client ids A
and B, the one from B is newer. -/
theorem newer_total_order :
    (∀ a b : Envelope, newer a b → ¬newer b a) ∧
    (∀ a b c : Envelope, newer a b → newer b c → newer a c) ∧
    (∀ a b : Envelope,
      (newer a b ∧ ¬newer b a ∧ ¬equivEnv a b) ∨
      (newer b a ∧ ¬newer a b ∧ ¬equivEnv a b) ∨
      (equivEnv a b ∧ ¬newer a b ∧ ¬newer b a)) ∧
    newer ⟨1000, "B"⟩ ⟨1000, "A"⟩ := by
  refine ⟨?_, ?_, ?_, ?_⟩
  · intro a b hab hba
    exact lt_asymm ((newer_iff_key a b).mp hab) ((newer_iff_key b a).mp hba)
  · intro a b c hab hbc
    exact (newer_iff_key a c).mpr
      (lt_trans ((newer_iff_key b c).mp hbc) ((newer_iff_key a b).mp hab))
  · intro a b
    rcases lt_trichotomy (freshKey a) (freshKey b) with h | h | h
    · refine Or.inr (Or.inl ⟨(newer_iff_key b a).mpr h, ?_, ?_⟩)
      · intro hab
        exact lt_asymm h ((newer_iff_key a b).mp hab)
      · intro he
        exact absurd ((equivEnv_iff_key a b).mp he) (ne_of_lt h)
    · refine Or.inr (Or.inr ⟨(equivEnv_iff_key a b).mpr h, ?_, ?_⟩)
      · intro hab
        have := (newer_iff_key a b).mp hab
        rw [h] at this
        exact lt_irrefl _ this
      · intro hba
        have := (newer_iff_key b a).mp hba
        rw [h] at this
        exact lt_irrefl _ this
    · refine Or.inl ⟨(newer_iff_key a b).mpr h, ?_, ?_⟩
      · intro hba
        exact lt_asymm h ((newer_iff_key b a).mp hba)
      · intro he
        exact absurd ((equivEnv_iff_key a b).mp he) (ne_of_gt h)
  · exact Or.inr ⟨rfl, by rw [gt_iff_lt, String.lt_iff_toList_lt]; decide⟩

/-- Claim C2 counterexample: with the runtime disconnected, an inbound
signal whose carrier client id is non-null is dropped even though the
allowed-roles set is empty, so the claim as stated fails. -/
theorem scope_disconnected_drops :
    msgC2.clientId ≠ none ∧
    scopeHandleSignal false [] (fun _ => Except.ok []) msgC2 = none := by
  exact ⟨by decide, rfl⟩

/-- Claim C2 (amended): for every event scope whose allowed-roles set is
empty, every inbound signal whose carrier-supplied client id is non-null
is delivered to the listeners registered for its event name, provided the
runtime is currently connected (a disconnected runtime drops every
inbound signal). -/
theorem scope_empty_roles_delivers
    (lookup : String → Except Unit (List UserMeetingRole))
    (msg : InboundMessage) (cid : String) (hcid : msg.clientId = some cid) :
    scopeHandleSignal true [] lookup msg =
      some { msg.content with clientId := msg.clientId } := by
  unfold scopeHandleSignal verifyRolesAllowed
  simp [hcid]

/-- Claim C2 witness: the amended claim at a concrete connected scope. -/
theorem scope_empty_roles_delivers_witness :
    scopeHandleSignal true [] (fun _ => Except.ok []) msgC2 =
      some { msgC2.content with clientId := msgC2.clientId } :=
  scope_empty_roles_delivers (fun _ => Except.ok []) msgC2 "A" rfl

/-- Claim C3: every envelope delivered to a listener of an event scope
carries as its client id exactly the carrier-supplied message client id,
whatever client id the sender placed in the payload. -/
theorem delivered_clientId_eq_carrier (connected : Bool)
    (allowed : List UserMeetingRole)
    (lookup : String → Except Unit (List UserMeetingRole))
    (msg : InboundMessage) (env : LiveEventRec)
    (hdeliv : scopeHandleSignal connected allowed lookup msg = some env) :
    env.clientId = msg.clientId := by
  unfold scopeHandleSignal at hdeliv
  by_cases hc : connected
  · simp [hc] at hdeliv
    rcases hm : msg.clientId with _ | cid
    · rw [hm] at hdeliv
      simp at hdeliv
    · rw [hm] at hdeliv
      rcases hv : verifyRolesAllowed (lookup cid) allowed with e | b
      · simp [hv] at hdeliv
      · rcases b with _ | _
        · simp [hv] at hdeliv
        · simp [hv] at hdeliv
          rw [← hdeliv, ← hm]
  · simp [hc] at hdeliv

/-- Claim C3 witness: a delivered envelope at a concrete input, with a
spoofed payload client id, carries the carrier client id. -/
theorem delivered_clientId_eq_carrier_witness :
    (LiveEventRec.mk "transport" (some "A") 1 []).clientId = msgC2.clientId :=
  delivered_clientId_eq_carrier true [] (fun _ => Except.ok []) msgC2
    (LiveEventRec.mk "transport" (some "A") 1 []) rfl

/-- Claim C1 counterexample: registering o1 while connected with a
`getState(true)` snapshot of `undefined` (none) still submits a connect
signal — carrying an undefined entry for o1 — where the claim says no
connect signal is submitted. -/
theorem register_none_state_still_signals :
    undefHandlers.getState true = some JVal.undef ∧
    (registerObject emptySt true "o1" undefHandlers).signals =
      [⟨CONNECT_EVENT, [("o1", JVal.undef)]⟩] ∧
    (registerObject emptySt true "o1" undefHandlers).signals ≠ [] := by
  refine ⟨rfl, ?_, ?_⟩ <;> decide

/-- Claim C1 (amended): on registration of an object id while the runtime
is connected, the synchronizer snapshots `getState(connecting := true)`
and — whether or not the snapshot is none — immediately submits a single
connect signal carrying the id mapped to the snapshot (a none snapshot is
sent as an undefined entry), and appends the id to `connectedKeys`. -/
theorem register_connected_submits_connect (st : SyncState) (i : String)
    (h : ObjHandlers) (hnew : st.hasObj i = false) (v : JVal)
    (hg : h.getState true = some v) :
    registerObject st true i h =
      ⟨bumpRef { st with
          objects := st.objects ++ [(i, h)]
          connectedKeys := st.connectedKeys ++ [i] },
        [⟨CONNECT_EVENT, [(i, v)]⟩], none⟩ := by
  unfold registerObject
  simp [hnew, hg]

/-- Claim C1 witness: the amended claim at a concrete registration whose
snapshot is a real object. -/
theorem register_connected_submits_connect_witness :
    registerObject emptySt true "o1" v7Handlers =
      ⟨bumpRef { emptySt with
          objects := emptySt.objects ++ [("o1", v7Handlers)]
          connectedKeys := emptySt.connectedKeys ++ ["o1"] },
        [⟨CONNECT_EVENT, [("o1", JVal.jobj [("v", 7)])]⟩], none⟩ :=
  register_connected_submits_connect emptySt "o1" v7Handlers rfl
    (JVal.jobj [("v", 7)]) rfl

/-- Claim C5: on every firing of the periodic timer, at most one update
signal is submitted regardless of how many objects are registered; an
emitted signal has type update and carries the coalesced mapping; and if
the coalesced mapping of non-none states is empty, no signal is submitted
at all. -/
theorem tick_emits_at_most_one_update (st : SyncState) :
    (tick st).length ≤ 1 ∧
    (∀ sig ∈ tick st,
      sig.type = UPDATE_EVENT ∧
      sig.content = coalesce st st.connectedKeys) ∧
    (coalesce st st.connectedKeys = [] → tick st = []) := by
  unfold tick
  exact sendGroupEvent_char st st.connectedKeys UPDATE_EVENT

/-- Claim C6: attempting to register an id that is already registered
raises the duplicate-registration error synchronously, and the failed
attempt leaves the synchronizer entirely unchanged — same objects map,
key lists, reference count and timer — and submits no signal. -/
theorem register_duplicate_rejected (st : SyncState) (connected : Bool)
    (i : String) (h : ObjHandlers) (hdup : st.hasObj i = true) :
    registerObject st connected i h =
      ⟨st, [], some RegError.duplicateRegistration⟩ := by
  unfold registerObject
  simp [hdup]

/-- Claim C6 witness: a concrete duplicate registration is rejected with
the state unchanged. -/
theorem register_duplicate_rejected_witness :
    registerObject stC7 true "o1" v7Handlers =
      ⟨stC7, [], some RegError.duplicateRegistration⟩ :=
  register_duplicate_rejected stC7 true "o1" v7Handlers rfl

/-- Claim C7: if during a tick the `getState` callback of one registered
object throws, the exception is contained — that id is absent from the
coalesced update — while any other registered connected id whose
`getState` returns an object still appears, and the tick emits that
coalesced mapping as its single update. -/
theorem tick_isolates_throwing_getState (st : SyncState) (i j : String)
    (hi : ObjHandlers) (hli : lookupObj st.objects i = some hi)
    (hthrow : hi.getState false = none)
    (hj : ObjHandlers) (s : JSObj) (hlj : lookupObj st.objects j = some hj)
    (hjs : hj.getState false = some (JVal.jobj s))
    (hjmem : j ∈ st.connectedKeys) :
    (∀ v, (i, v) ∉ coalesce st st.connectedKeys) ∧
    (j, JVal.jobj s) ∈ coalesce st st.connectedKeys ∧
    tick st = [⟨UPDATE_EVENT, coalesce st st.connectedKeys⟩] := by
  have hjin : (j, JVal.jobj s) ∈ coalesce st st.connectedKeys := by
    unfold coalesce
    rw [List.mem_filterMap]
    exact ⟨j, hjmem, by simp [hlj, hjs, JVal.typeofIsObject]⟩
  refine ⟨?_, hjin, ?_⟩
  · intro v hmem
    obtain ⟨-, h', hl', hg', -⟩ := coalesce_mem_inv st st.connectedKeys i v hmem
    rw [hli] at hl'
    cases hl'
    rw [hthrow] at hg'
    exact Option.noConfusion hg'
  · unfold tick sendGroupEvent
    have hne : (coalesce st st.connectedKeys).isEmpty = false := by
      rcases he : coalesce st st.connectedKeys with _ | _
      · rw [he] at hjin
        exact absurd hjin (List.not_mem_nil _)
      · rfl
    simp [hne]

/-- Claim C7 witness: o1 throws and o2 returns the record with v equal
to 7; the emitted update carries exactly the o2 entry. -/
theorem tick_isolates_throwing_getState_witness :
    ((∀ v, ("o1", v) ∉ coalesce stC7 stC7.connectedKeys) ∧
      ("o2", JVal.jobj [("v", 7)]) ∈ coalesce stC7 stC7.connectedKeys ∧
      tick stC7 = [⟨UPDATE_EVENT, coalesce stC7 stC7.connectedKeys⟩]) ∧
    tick stC7 = [⟨UPDATE_EVENT, [("o2", JVal.jobj [("v", 7)])]⟩] :=
  ⟨tick_isolates_throwing_getState stC7 "o1" "o2" throwingHandlers rfl rfl
      v7Handlers [("v", 7)] rfl rfl (by decide),
    by decide⟩

/-- Claim C10: calling `unregisterObject` with an id that is not
currently registered returns false and leaves the synchronizer state
entirely unchanged — objects map, connected and unconnected key lists,
reference count, and the running timer are all as before the call. -/
theorem unregister_unknown_is_noop (st : SyncState) (i : String)
    (hmiss : st.hasObj i = false) :
    unregisterObject st i = ⟨st, false⟩ := by
  unfold unregisterObject
  simp [hmiss]

/-- Claim C10 witness: unregistering an id never registered is a no-op on
a concrete synchronizer. -/
theorem unregister_unknown_is_noop_witness :
    unregisterObject stC7 "zzz" = ⟨stC7, false⟩ :=
  unregister_unknown_is_noop stC7 "zzz" rfl

/-- Claim C4 counterexample: both o1 and o2 are registered and both
appear in the incoming remote connect payload, but the pong references
only o2, because the `getState(false)` of o1 returned undefined — so the
pong does not reference exactly the registered subset of the payload ids
as the claim states. -/
theorem connect_pong_not_exact_subset :
    stC4.hasObj "o1" = true ∧ stC4.hasObj "o2" = true ∧
    (handleContainerSignal stC4 false CONNECT_EVENT "remote"
        (some [("o1", JVal.jobj [("v", 1)]), ("o2", JVal.jobj [("v", 1)])])).signals =
      [⟨UPDATE_EVENT, [("o2", JVal.jobj [("v", 7)])]⟩] := by
  refine ⟨rfl, rfl, ?_⟩
  decide

/-- Claim C4 (amended): for every connect signal received from a remote
client, the synchronizer sends at most one pong update in immediate
response (not waiting for the periodic timer); the pong has type update
and carries the coalesced `getState(false)` states over exactly the
registered ids of the incoming payload — an id whose `getState(false)`
throws or returns a non-object is omitted — and when that coalesced
mapping is empty no pong is sent at all. -/
theorem connect_pong_properties (st : SyncState) (senderId : String)
    (updates : List (String × JVal)) :
    ((handleContainerSignal st false CONNECT_EVENT senderId
        (some updates)).signals).length ≤ 1 ∧
    (∀ sig ∈ (handleContainerSignal st false CONNECT_EVENT senderId
        (some updates)).signals,
      sig.type = UPDATE_EVENT ∧
      sig.content =
        coalesce st ((updates.filter fun p => st.hasObj p.1).map Prod.fst)) ∧
    (coalesce st ((updates.filter fun p => st.hasObj p.1).map Prod.fst) = [] →
      (handleContainerSignal st false CONNECT_EVENT senderId
        (some updates)).signals = []) := by
  rw [handle_connect_signals st senderId updates]
  exact sendGroupEvent_char st
    ((updates.filter fun p => st.hasObj p.1).map Prod.fst) UPDATE_EVENT

/-- Claim C9: for an incoming remote connect or update signal and a
registered id whose payload entry is null, the structural typeof check
classifies null as an object, so `updateState` is invoked with the null
state and the sender id rather than the entry being skipped. -/
theorem null_state_dispatched (st : SyncState) (senderId : String)
    (updates : List (String × JVal)) (i : String)
    (hmem : (i, JVal.jnull) ∈ updates) (hreg : st.hasObj i = true) :
    JVal.jnull.typeofIsObject = true ∧
    (⟨i, true, JVal.jnull, senderId⟩ : UpdateCall) ∈
      (handleContainerSignal st false CONNECT_EVENT senderId
        (some updates)).calls ∧
    (⟨i, false, JVal.jnull, senderId⟩ : UpdateCall) ∈
      (handleContainerSignal st false UPDATE_EVENT senderId
        (some updates)).calls := by
  obtain ⟨h, hl⟩ := Option.isSome_iff_exists.mp hreg
  have hcall : ∀ connecting : Bool,
      (⟨i, connecting, JVal.jnull, senderId⟩ : UpdateCall) ∈
        (dispatchUpdates st senderId updates connecting).calls := by
    intro connecting
    unfold dispatchUpdates
    simp only
    rw [List.mem_filterMap]
    exact ⟨(i, JVal.jnull), hmem, by simp [hl, JVal.typeofIsObject]⟩
  refine ⟨rfl, ?_, ?_⟩
  · simpa [handleContainerSignal] using hcall true
  · simpa [handleContainerSignal] using hcall false

/-- Claim C9 witness: a null entry for the registered id o1 is dispatched
to its `updateState` on a concrete connect and a concrete update. -/
theorem null_state_dispatched_witness :
    JVal.jnull.typeofIsObject = true ∧
    (⟨"o1", true, JVal.jnull, "remote"⟩ : UpdateCall) ∈
      (handleContainerSignal stC9 false CONNECT_EVENT "remote"
        (some [("o1", JVal.jnull)])).calls ∧
    (⟨"o1", false, JVal.jnull, "remote"⟩ : UpdateCall) ∈
      (handleContainerSignal stC9 false UPDATE_EVENT "remote"
        (some [("o1", JVal.jnull)])).calls :=
  null_state_dispatched stC9 "remote" [("o1", JVal.jnull)] "o1"
    (by decide) rfl

end LiveShare
